import Mathlib

/-!
Shallow embedding of the AI Request Gateway of `src/main.py`:
the Credential Vault (`encrypt_secret`, `decrypt_secret`, `mask_key`),
the token-bucket `RateLimiter`, the Budget Governor (`get_monthly_cost`),
the Usage Ledger rows (`log_ai_usage`) and the Retry/Backoff Invoker
(`call_ai`).  Currency amounts and the real-valued token count of the
rate limiter are modelled over `ℚ`; machine time is an abstract
monotonic clock value in `ℚ`; the external HTTP world is an explicit
environment (one `AttemptOutcome` per attempt index).
-/

namespace Gateway

/-! ## Credential Vault (src/main.py lines 521-541)

The Fernet primitive is third-party code (`cryptography.fernet`), not part
of this repository; it is abstracted as any symmetric scheme satisfying
Fernet's contract: decryption inverts encryption, an unauthenticated
ciphertext decrypts to nothing, and a produced token is never the empty
string. -/

structure FernetCipher where
  enc : String → String
  dec : String → Option String
  round_trip : ∀ s, dec (enc s) = some s
  enc_ne : ∀ s, enc s ≠ ""

/-- Function `encrypt_secret` (lines 525-528): empty plaintext, or a runtime without
the cipher primitive, passes the plaintext through unchanged. -/
def encrypt_secret (c : FernetCipher) (cryptoAvailable : Bool) (plaintext : String) : String :=
  if plaintext = "" ∨ cryptoAvailable = false then plaintext
  else c.enc plaintext

/-- Function `decrypt_secret` (lines 530-538): empty ciphertext yields `none`; without
the primitive the ciphertext is returned as-is; a failed Fernet decryption
(caught `Exception`) yields `none`. -/
def decrypt_secret (c : FernetCipher) (cryptoAvailable : Bool) (ciphertext : String) : Option String :=
  if ciphertext = "" then none
  else if cryptoAvailable = false then some ciphertext
  else c.dec ciphertext

/-- Function `mask_key` (lines 540-541):
`key[:8] + "···" + "●" * 8 if key and len(key) > 8 else "●●●"`. -/
def mask_key (key : String) : String :=
  if key ≠ "" ∧ 8 < key.length then key.take 8 ++ "···" ++ "●●●●●●●●"
  else "●●●"

/-! ## Token-bucket rate limiter (src/main.py lines 788-798) -/

structure RateLimiter where
  max : ℚ
  tokens : ℚ
  period : ℚ
  last : ℚ

/-- Constructor `RateLimiter.__init__(max_tokens, period=60.0)` at monotonic time `t0`. -/
def RateLimiter.init (maxTokens : ℚ) (t0 : ℚ) : RateLimiter :=
  { max := maxTokens, tokens := maxTokens, period := 60, last := t0 }

/-- Method `RateLimiter.acquire` called at monotonic time `now`: continuous refill
capped at capacity, timestamp updated, then admit iff at least one token. -/
def RateLimiter.acquire (st : RateLimiter) (now : ℚ) : Bool × RateLimiter :=
  let tokens := min st.max (st.tokens + (now - st.last) / st.period * st.max)
  if 1 ≤ tokens then
    (true, { st with tokens := tokens - 1, last := now })
  else
    (false, { st with tokens := tokens, last := now })

/-- Run a sequence of `acquire` calls at the given monotonic times. -/
def runAcquires (st : RateLimiter) : List ℚ → List Bool × RateLimiter
  | [] => ([], st)
  | t :: ts =>
      let r := st.acquire t
      let rest := runAcquires r.2 ts
      (r.1 :: rest.1, rest.2)

/-! ## Usage Ledger and Budget Governor (src/main.py lines 711-722) -/

/-- One row of `ai_usage_log`, as handed to `log_ai_usage` (lines 720-722).
`created_at` is a database default; for spend accounting a row is paired
with its creation month separately. -/
structure UsageRecord where
  provider : String
  model : String
  feature : String
  prompt_tokens : ℕ
  completion_tokens : ℕ
  cost_usd : ℚ
  success : Bool
  error_msg : Option String
  duration_ms : ℕ

/-- Function `log_ai_usage` (lines 720-722) merely inserts one row built from its
arguments; in the embedding it constructs the row the insert would write. -/
def log_ai_usage (provider model feature : String) (ptok ctok : ℕ) (cost : ℚ)
    (success : Bool) (error : Option String) (duration_ms : ℕ) : UsageRecord :=
  { provider := provider, model := model, feature := feature,
    prompt_tokens := ptok, completion_tokens := ctok, cost_usd := cost,
    success := success, error_msg := error, duration_ms := duration_ms }

/-- Function `get_monthly_cost` (lines 711-713): sum of `cost_usd` over rows with
`success=1` created in the current calendar month.  Each ledger row is
paired with its creation month (the `strftime` key); `nowMonth` is the
month of the query's wall clock. -/
def get_monthly_cost (log : List (UsageRecord × String)) (nowMonth : String) : ℚ :=
  ((log.filter (fun r => r.1.success = true ∧ r.2 = nowMonth)).map
    (fun r => r.1.cost_usd)).sum

/-! ## Pricing (src/main.py lines 62-65 and 847) -/

structure Price where
  price_in : ℚ
  price_out : ℚ

/-- The `PRICING` table: both DeepSeek models priced at 0.14 / 0.28 USD per
million tokens. -/
def PRICING : List (String × Price) :=
  [("deepseek-chat", ⟨14/100, 28/100⟩), ("deepseek-coder", ⟨14/100, 28/100⟩)]

/-- Lookup `PRICING.get(model, default)` with the default price pair of line 847. -/
def pricingFor (model : String) : Price :=
  (PRICING.lookup model).getD ⟨14/100, 28/100⟩

/-! ## Budget error message formatting (line 825)

`f"Monthly budget ${budget:.2f} exceeded (${monthly_cost:.2f} spent)"`.
The two-decimal rendering of a `ℚ` mirrors Python's fixed-point format,
rounding half to even. -/

/-- Round `x` half-to-even to an integer. -/
def roundHalfEven (x : ℚ) : ℤ :=
  let f := ⌊x⌋
  let frac := x - (f : ℚ)
  if frac < 1/2 then f
  else if 1/2 < frac then f + 1
  else if f % 2 = 0 then f else f + 1

/-- Two-digit zero-padded rendering of `m < 100`. -/
def pad2 (m : ℕ) : String :=
  if m < 10 then "0" ++ toString m else toString m

/-- Fixed-point `:.2f` rendering of a currency amount. -/
def formatUSD (q : ℚ) : String :=
  let cents := roundHalfEven (q * 100)
  let sign := if cents < 0 then "-" else ""
  let n := cents.natAbs
  sign ++ toString (n / 100) ++ "." ++ pad2 (n % 100)

/-- The budget-gate failure message of line 825. -/
def budgetErrorMsg (budget spend : ℚ) : String :=
  "Monthly budget $" ++ formatUSD budget ++ " exceeded ($" ++ formatUSD spend ++ " spent)"

/-! ## Retry/Backoff Invoker (src/main.py lines 807-857) -/

/-- The `AIResponse` dataclass (lines 807-816). -/
structure AIResponse where
  success : Bool
  content : Option String := none
  error : Option String := none
  cost_usd : ℚ := 0
  duration_ms : ℕ := 0
  prompt_tokens : ℕ := 0
  completion_tokens : ℕ := 0
  model : String := ""

/-- The active `ai_config` row as `call_ai` consumes it after
`get_ai_config`: `api_key` is the decrypted key (`None` when the row has
no decryptable ciphertext). -/
structure AIConfig where
  provider : String
  api_key : Option String
  model : String
  base_url : String
  monthly_budget : ℚ

/-- The token-usage object of a 200 response; either counter field may be
missing from the JSON. -/
structure UsageObj where
  prompt_tokens : Option ℕ
  completion_tokens : Option ℕ

/-- A parseable 200-response body: the first choice's message content plus
an optional usage object. -/
structure ResponseBody where
  content : String
  usage : Option UsageObj

/-- What one `requests.post` attempt observes (lines 842-855): an HTTP
status with body text, a `Timeout`, a `ConnectionError`, or any other
exception. -/
inductive AttemptOutcome where
  | http (status : ℕ) (body : ResponseBody) (text : String)
  | timeout
  | connectionError
  | unexpectedError (msg : String)

/-- Aggregate observable behaviour of the `for attempt in range(3)` loop
(lines 838-855): backoff sleeps performed, HTTP requests issued, ledger
rows written from inside the loop, the in-loop `return` value when the
loop returned, and the value of `last_error` when it did not. -/
structure LoopOut where
  sleeps : List ℕ
  calls : ℕ
  written : List UsageRecord
  outcome : Option AIResponse
  lastError : String

/-- The attempt loop, one list element per remaining `range(3)` index.
`attempt > 0` sleeps `2**attempt` first; 200 logs a success row and
returns; 429/503 set `last_error` and continue; any other status,
`ConnectionError` or unexpected exception sets `last_error` and breaks;
`Timeout` sets `last_error` and falls through to the next iteration. -/
def runAttempts (model feature : String) (outcomes : ℕ → AttemptOutcome)
    (durs : ℕ → ℕ) : List ℕ → String → LoopOut
  | [], le => ⟨[], 0, [], none, le⟩
  | attempt :: rest, le =>
      let sl : List ℕ := if 0 < attempt then [2 ^ attempt] else []
      let dur := durs attempt
      match outcomes attempt with
      | .http status body text =>
          if status = 200 then
            let u := body.usage.getD ⟨none, none⟩
            let ptok := u.prompt_tokens.getD 0
            let ctok := u.completion_tokens.getD 0
            let p := pricingFor model
            let cost := (ptok : ℚ) / 1000000 * p.price_in
                        + (ctok : ℚ) / 1000000 * p.price_out
            ⟨sl, 1,
             [log_ai_usage "deepseek" model feature ptok ctok cost true none dur],
             some { success := true, content := some body.content,
                    cost_usd := cost, duration_ms := dur,
                    prompt_tokens := ptok, completion_tokens := ctok,
                    model := model },
             le⟩
          else if status = 429 ∨ status = 503 then
            let o := runAttempts model feature outcomes durs rest
                       ("HTTP " ++ toString status)
            ⟨sl ++ o.sleeps, o.calls + 1, o.written, o.outcome, o.lastError⟩
          else
            ⟨sl, 1, [], none, "HTTP " ++ toString status ++ ": " ++ text.take 150⟩
      | .timeout =>
          let o := runAttempts model feature outcomes durs rest "Timeout"
          ⟨sl ++ o.sleeps, o.calls + 1, o.written, o.outcome, o.lastError⟩
      | .connectionError => ⟨sl, 1, [], none, "Cannot reach API"⟩
      | .unexpectedError e => ⟨sl, 1, [], none, e⟩

/-- Observable behaviour of one `call_ai` invocation: the returned
`AIResponse`, every ledger row appended, the backoff sleeps and the
number of HTTP requests issued. -/
structure CallResult where
  response : AIResponse
  records : List UsageRecord
  sleeps : List ℕ
  calls : ℕ

/-- The "not configured" early return of lines 820-821. -/
def notConfiguredResult : CallResult :=
  { response := { success := false,
                  error := some "AI not configured — add API key in ⚙ Settings" },
    records := [], sleeps := [], calls := 0 }

/-- Function `call_ai` (lines 818-857).  The environment supplies the active config
(`none` when no `ai_config` row is active), the month-to-date spend the
budget gate reads, the rate limiter's verdict, and one `AttemptOutcome`
and duration per attempt index.  Gate order follows the source: config,
budget (`monthly_cost >= budget`), rate limit, then the attempt loop; a
loop that does not return logs one failure row with zero tokens, zero
cost and zero duration (line 856). -/
def call_ai (cfg? : Option AIConfig) (monthlyCost : ℚ) (rlAdmit : Bool)
    (outcomes : ℕ → AttemptOutcome) (durs : ℕ → ℕ) (feature : String) : CallResult :=
  match cfg? with
  | none => notConfiguredResult
  | some cfg =>
      if cfg.api_key = none ∨ cfg.api_key = some "" then notConfiguredResult
      else if cfg.monthly_budget ≤ monthlyCost then
        { response := { success := false,
                        error := some (budgetErrorMsg cfg.monthly_budget monthlyCost) },
          records := [], sleeps := [], calls := 0 }
      else if rlAdmit = false then
        { response := { success := false, error := some "Rate limit — wait a moment" },
          records := [], sleeps := [], calls := 0 }
      else
        let o := runAttempts cfg.model feature outcomes durs [0, 1, 2] ""
        match o.outcome with
        | some resp =>
            { response := resp, records := o.written, sleeps := o.sleeps, calls := o.calls }
        | none =>
            { response := { success := false, error := some o.lastError },
              records := o.written ++
                [log_ai_usage "deepseek" cfg.model feature 0 0 0 false
                  (some o.lastError) 0],
              sleeps := o.sleeps, calls := o.calls }

/-! ## Concrete witnesses for evaluation -/

/-- A concrete scheme satisfying the Fernet contract, for witnesses:
prepend a marker character. -/
def exCipher : FernetCipher where
  enc s := String.mk ('F' :: s.data)
  dec t :=
    match t.data with
    | [] => none
    | a :: rest => if a = 'F' then some (String.mk rest) else none
  round_trip s := rfl
  enc_ne s h := by
    have hd := congrArg String.data h
    simp at hd

/-- A concrete active configuration that passes the credential gate. -/
def cfgEx : AIConfig :=
  { provider := "deepseek", api_key := some "sk-test", model := "deepseek-chat",
    base_url := "https://api.deepseek.com", monthly_budget := 50 }

/-- A 200 body with full token usage reported. -/
def bodyEx : ResponseBody := ⟨"ok", some ⟨some 1000, some 500⟩⟩

/-- A 200 body whose JSON has no usage object. -/
def bodyNoUsage : ResponseBody := ⟨"ok", none⟩

/-- Environment: 503 on the first two attempts, 200 on the third. -/
def ocRetryEx : ℕ → AttemptOutcome :=
  fun n => if n ≤ 1 then .http 503 ⟨"", none⟩ "busy" else .http 200 bodyEx ""

/-- Environment: 404 on every attempt. -/
def oc404Ex : ℕ → AttemptOutcome := fun _ => .http 404 ⟨"", none⟩ "nf"

/-- Environment: 200 with a usage-free body on every attempt. -/
def oc200NoUsage : ℕ → AttemptOutcome := fun _ => .http 200 bodyNoUsage ""

/-- Constant attempt durations. -/
def dEx : ℕ → ℕ := fun _ => 7

/-- A concrete ledger whose success rows this month cost exactly 50. -/
def logEx : List (UsageRecord × String) :=
  [(log_ai_usage "deepseek" "deepseek-chat" "retro" 1000 500 30 true none 12, "2026-10"),
   (log_ai_usage "deepseek" "deepseek-chat" "risk" 2000 1000 20 true none 9, "2026-10"),
   (log_ai_usage "deepseek" "deepseek-chat" "risk" 0 0 0 false (some "Timeout") 0, "2026-10"),
   (log_ai_usage "deepseek" "deepseek-chat" "risk" 500 100 99 true none 4, "2026-09")]

/-! # Theorems -/

/-- C5: with the cipher primitive available, `decrypt_secret` inverts
`encrypt_secret` on every non-empty string; decrypting the empty string
yields `none`; and any ciphertext the primitive rejects (corrupted, wrong
key, rotated secret) also yields `none` — the embedding is total, so no
exception escapes. -/
theorem decrypt_encrypt_round_trip (c : FernetCipher) :
    (∀ s : String, s ≠ "" → decrypt_secret c true (encrypt_secret c true s) = some s) ∧
    decrypt_secret c true "" = none ∧
    (∀ g : String, c.dec g = none → decrypt_secret c true g = none) := by
  refine ⟨fun s hs => ?_, rfl, fun g hg => ?_⟩
  · rw [encrypt_secret, if_neg (by simp [hs])]
    rw [decrypt_secret, if_neg (c.enc_ne s)]
    simp [c.round_trip]
  · rw [decrypt_secret]
    by_cases hgE : g = ""
    · rw [if_pos hgE]
    · rw [if_neg hgE]; simp [hg]

/-- Witness for C5 at the concrete cipher and key `"sk-test"`. -/
theorem decrypt_encrypt_round_trip_witness :
    decrypt_secret exCipher true (encrypt_secret exCipher true "sk-test") = some "sk-test" :=
  (decrypt_encrypt_round_trip exCipher).1 "sk-test" (by decide)

/-- C4 counterexample: a 20-character key masks to a 19-character display
string — first 8 characters plus an 11-character filler (`···` and eight
`●`), not the claimed 8-character filler (which would give length 16). -/
theorem mask_key_c4_counterexample :
    mask_key "ABCDEFGHIJKLMNOPQRST" = "ABCDEFGH···●●●●●●●●" ∧
    (mask_key "ABCDEFGHIJKLMNOPQRST").length = 19 ∧ 19 ≠ 8 + 8 := by
  have h : mask_key "ABCDEFGHIJKLMNOPQRST" = "ABCDEFGH···●●●●●●●●" := by
    rw [mask_key, if_pos (by decide), String.take_eq]
    decide
  exact ⟨h, by rw [h]; decide, by decide⟩

/-- C4 amended: a key longer than 8 characters masks to its first 8
characters followed by the fixed 11-character opaque filler `···●●●●●●●●`
(total length 19); a key of 8 or fewer characters, the empty key included,
masks to the fixed fully-opaque `●●●`. -/
theorem mask_key_masking (key : String) :
    (8 < key.length →
      mask_key key = key.take 8 ++ "···" ++ "●●●●●●●●" ∧ (mask_key key).length = 19) ∧
    (key.length ≤ 8 → mask_key key = "●●●") := by
  constructor
  · intro h
    have hne : key ≠ "" := by
      intro he; rw [he] at h; simp at h
    have hm : mask_key key = key.take 8 ++ "···" ++ "●●●●●●●●" := by
      rw [mask_key, if_pos ⟨hne, h⟩]
    refine ⟨hm, ?_⟩
    rw [hm, String.length_append, String.length_append, String.take_eq]
    have h8 : (String.mk (key.data.take 8)).length = 8 := by
      show (key.data.take 8).length = 8
      rw [List.length_take]
      have h2 : key.length = key.data.length := rfl
      omega
    rw [h8]
    decide
  · intro h
    rw [mask_key, if_neg]
    intro hcon
    omega

/-- Witness for C4's amended statement at a 20-character and a 5-character
key. -/
theorem mask_key_masking_witness :
    mask_key "ABCDEFGHIJKLMNOPQRST" = "ABCDEFGHIJKLMNOPQRST".take 8 ++ "···" ++ "●●●●●●●●" ∧
    mask_key "sk-ab" = "●●●" :=
  ⟨((mask_key_masking "ABCDEFGHIJKLMNOPQRST").1 (by decide)).1,
   (mask_key_masking "sk-ab").2 (by decide)⟩

/-- Helper: an `acquire` whose gap since the stored timestamp is at least
`60 / capacity` refills at least one whole token, is admitted, and leaves
a nonnegative count with the capacity, period and new timestamp recorded. -/
theorem acquire_spaced_step (st : RateLimiter) (now : ℚ) (c : ℕ) (hc : 1 ≤ c)
    (hmax : st.max = c) (hper : st.period = 60) (htok : 0 ≤ st.tokens)
    (hgap : st.last + 60 / (c : ℚ) ≤ now) :
    (st.acquire now).1 = true ∧ 0 ≤ (st.acquire now).2.tokens ∧
    (st.acquire now).2.max = c ∧ (st.acquire now).2.period = 60 ∧
    (st.acquire now).2.last = now := by
  have hc1 : (1 : ℚ) ≤ (c : ℚ) := by exact_mod_cast hc
  have hcpos : (0 : ℚ) < c := by linarith
  have hrefill : (1 : ℚ) ≤ (now - st.last) / st.period * st.max := by
    rw [hper, hmax]
    have h1 : 60 / (c : ℚ) ≤ now - st.last := by linarith
    have h2 : (60 / (c : ℚ)) / 60 * c = 1 := by field_simp; ring
    calc (1 : ℚ) = (60 / (c : ℚ)) / 60 * c := h2.symm
      _ ≤ (now - st.last) / 60 * c := by gcongr
  have hmin : (1 : ℚ) ≤ min st.max (st.tokens + (now - st.last) / st.period * st.max) := by
    refine le_min ?_ (by linarith)
    rw [hmax]; exact hc1
  simp only [RateLimiter.acquire]
  rw [if_pos hmin]
  exact ⟨rfl, by simp only; linarith, hmax, hper, rfl⟩

/-- Helper: an `acquire` on a full bucket of capacity at least 1 is
admitted whatever nonnegative time has elapsed. -/
theorem acquire_full_step (st : RateLimiter) (now : ℚ) (c : ℕ) (hc : 1 ≤ c)
    (hmax : st.max = c) (hper : st.period = 60) (htok : st.tokens = st.max)
    (hlast : st.last ≤ now) :
    (st.acquire now).1 = true ∧ 0 ≤ (st.acquire now).2.tokens ∧
    (st.acquire now).2.max = c ∧ (st.acquire now).2.period = 60 ∧
    (st.acquire now).2.last = now := by
  have hc1 : (1 : ℚ) ≤ (c : ℚ) := by exact_mod_cast hc
  have hcpos : (0 : ℚ) < c := by linarith
  have hrefill : 0 ≤ (now - st.last) / st.period * (c : ℚ) := by
    rw [hper]
    have h1 : (0 : ℚ) ≤ now - st.last := by linarith
    exact mul_nonneg (div_nonneg h1 (by norm_num)) (le_of_lt hcpos)
  have hmin : (1 : ℚ) ≤ min st.max (st.tokens + (now - st.last) / st.period * st.max) := by
    refine le_min ?_ ?_
    · rw [hmax]; exact hc1
    · rw [htok, hmax]; linarith
  simp only [RateLimiter.acquire]
  rw [if_pos hmin]
  exact ⟨rfl, by simp only; linarith, hmax, hper, rfl⟩

/-- Helper: from any reachable state with a nonnegative count, a run of
calls each at least `60 / capacity` after the previous one (the first at
least that long after the stored timestamp) is admitted throughout. -/
theorem runAcquires_spaced (c : ℕ) (hc : 1 ≤ c) :
    ∀ (ts : List ℚ) (st : RateLimiter), st.max = c → st.period = 60 → 0 ≤ st.tokens →
      (∀ t ∈ ts.head?, st.last + 60 / (c : ℚ) ≤ t) →
      List.Chain' (fun a b => a + 60 / (c : ℚ) ≤ b) ts →
      (runAcquires st ts).1.all (fun b => b) = true
  | [], _, _, _, _, _, _ => rfl
  | t :: ts, st, hmax, hper, htok, hhead, hchain => by
      have hgap : st.last + 60 / (c : ℚ) ≤ t := hhead t rfl
      obtain ⟨h1, h2, h3, h4, h5⟩ := acquire_spaced_step st t c hc hmax hper htok hgap
      rw [List.chain'_cons'] at hchain
      have ih := runAcquires_spaced c hc ts (st.acquire t).2 h3 h4 h2
        (fun u hu => by rw [h5]; exact hchain.1 u hu) hchain.2
      simp only [runAcquires, List.all_cons]
      simp [h1, ih]

/-- C6: starting from a limiter initialized to full capacity (at least one
request per minute), every sequence of `acquire` calls spaced at least
`60 / capacity` time-units apart is admitted in full — the bucket never
starves a correctly-paced caller. -/
theorem rate_limiter_paced_admission (c : ℕ) (hc : 1 ≤ c) (t0 : ℚ) (ts : List ℚ)
    (hfirst : ∀ t ∈ ts.head?, t0 ≤ t)
    (hgap : List.Chain' (fun a b => a + 60 / (c : ℚ) ≤ b) ts) :
    (runAcquires (RateLimiter.init (c : ℚ) t0) ts).1.all (fun b => b) = true := by
  cases ts with
  | nil => rfl
  | cons t ts =>
      have hlast : t0 ≤ t := hfirst t rfl
      obtain ⟨h1, h2, h3, h4, h5⟩ :=
        acquire_full_step (RateLimiter.init (c : ℚ) t0) t c hc rfl rfl rfl hlast
      rw [List.chain'_cons'] at hgap
      have ih := runAcquires_spaced c hc ts ((RateLimiter.init (c : ℚ) t0).acquire t).2 h3 h4 h2
        (fun u hu => by rw [h5]; exact hgap.1 u hu) hgap.2
      simp only [runAcquires, List.all_cons]
      simp [h1, ih]

/-- Witness for C6: capacity 2 per minute, calls at times 0, 30 and 60. -/
theorem rate_limiter_paced_admission_witness :
    (runAcquires (RateLimiter.init ((2 : ℕ) : ℚ) 0) [0, 30, 60]).1.all (fun b => b) = true :=
  rate_limiter_paced_admission 2 (by norm_num) 0 [0, 30, 60]
    (by intro t ht; simp at ht; rw [← ht])
    (by norm_num [List.chain'_cons, List.chain'_singleton])

/-- Helper: the attempt loop logs exactly one ledger row — a successful
one — when it returns from inside, and logs none when it falls through or
breaks (the single failure row is then written after the loop). -/
theorem runAttempts_record_cases (model feature : String)
    (outcomes : ℕ → AttemptOutcome) (durs : ℕ → ℕ) :
    ∀ (fuel : List ℕ) (le : String),
      ((runAttempts model feature outcomes durs fuel le).outcome = none ∧
       (runAttempts model feature outcomes durs fuel le).written = []) ∨
      (∃ resp rec,
        (runAttempts model feature outcomes durs fuel le).outcome = some resp ∧
        (runAttempts model feature outcomes durs fuel le).written = [rec] ∧
        rec.success = true ∧ resp.success = true)
  | [], _ => Or.inl ⟨rfl, rfl⟩
  | attempt :: rest, le => by
      cases houtc : outcomes attempt with
      | http status body text =>
          by_cases h200 : status = 200
          · subst h200
            right
            simp [runAttempts, houtc, log_ai_usage]
          · by_cases htr : status = 429 ∨ status = 503
            · rcases runAttempts_record_cases model feature outcomes durs rest
                ("HTTP " ++ toString status) with ⟨ho, hw⟩ | ⟨resp, rec, ho, hw, hr, hp⟩
              · exact Or.inl ⟨by simp [runAttempts, houtc, h200, htr, ho],
                  by simp [runAttempts, houtc, h200, htr, hw]⟩
              · exact Or.inr ⟨resp, rec, by simp [runAttempts, houtc, h200, htr, ho],
                  by simp [runAttempts, houtc, h200, htr, hw], hr, hp⟩
            · exact Or.inl ⟨by simp [runAttempts, houtc, h200, htr],
                by simp [runAttempts, houtc, h200, htr]⟩
      | timeout =>
          rcases runAttempts_record_cases model feature outcomes durs rest "Timeout" with
            ⟨ho, hw⟩ | ⟨resp, rec, ho, hw, hr, hp⟩
          · exact Or.inl ⟨by simp [runAttempts, houtc, ho], by simp [runAttempts, houtc, hw]⟩
          · exact Or.inr ⟨resp, rec, by simp [runAttempts, houtc, ho],
              by simp [runAttempts, houtc, hw], hr, hp⟩
      | connectionError =>
          exact Or.inl ⟨by simp [runAttempts, houtc], by simp [runAttempts, houtc]⟩
      | unexpectedError e =>
          exact Or.inl ⟨by simp [runAttempts, houtc], by simp [runAttempts, houtc]⟩

/-- C2: a `call_ai` invocation that passes the credential, budget and
rate-limit gates appends exactly one ledger row, whether the attempt loop
ends in success or in terminal failure; an invocation that fails any gate
appends no row and issues no HTTP request. -/
theorem call_ai_ledger_discipline :
    (∀ (cfg : AIConfig) (k : String), cfg.api_key = some k → k ≠ "" →
      ∀ (mc : ℚ), mc < cfg.monthly_budget →
      ∀ (outcomes : ℕ → AttemptOutcome) (durs : ℕ → ℕ) (feature : String),
        (call_ai (some cfg) mc true outcomes durs feature).records.length = 1) ∧
    (∀ (cfg? : Option AIConfig) (mc : ℚ) (rl : Bool)
       (outcomes : ℕ → AttemptOutcome) (durs : ℕ → ℕ) (feature : String),
      (cfg? = none ∨ ∃ cfg, cfg? = some cfg ∧
        (cfg.api_key = none ∨ cfg.api_key = some "" ∨ cfg.monthly_budget ≤ mc ∨ rl = false)) →
      (call_ai cfg? mc rl outcomes durs feature).records = [] ∧
      (call_ai cfg? mc rl outcomes durs feature).calls = 0) := by
  constructor
  · intro cfg k hk hk' mc hb outcomes durs feature
    have hkey : ¬(cfg.api_key = none ∨ cfg.api_key = some "") := by
      rw [hk]; simp [hk']
    have hbud : ¬(cfg.monthly_budget ≤ mc) := not_le.mpr hb
    rcases runAttempts_record_cases cfg.model feature outcomes durs [0, 1, 2] "" with
      ⟨ho, hw⟩ | ⟨resp, rec, ho, hw, _, _⟩
    · simp [call_ai, hkey, hbud, ho, hw]
    · simp [call_ai, hkey, hbud, ho, hw]
  · intro cfg? mc rl outcomes durs feature hgate
    rcases hgate with rfl | ⟨cfg, rfl, hfail⟩
    · exact ⟨rfl, rfl⟩
    · rcases hfail with h | h | h | h
      · constructor <;> simp [call_ai, h, notConfiguredResult]
      · constructor <;> simp [call_ai, h, notConfiguredResult]
      · by_cases hkey : cfg.api_key = none ∨ cfg.api_key = some ""
        · constructor <;> simp [call_ai, hkey, notConfiguredResult]
        · constructor <;> simp [call_ai, hkey, h]
      · by_cases hkey : cfg.api_key = none ∨ cfg.api_key = some ""
        · constructor <;> simp [call_ai, hkey, notConfiguredResult]
        · by_cases hbud : cfg.monthly_budget ≤ mc
          · constructor <;> simp [call_ai, hkey, hbud]
          · constructor <;> simp [call_ai, hkey, hbud, h]

/-- Witness for C2: a passing invocation (404 environment) writes one row;
with no active configuration nothing is written and no request is made. -/
theorem call_ai_ledger_discipline_witness :
    (call_ai (some cfgEx) 0 true oc404Ex dEx "general").records.length = 1 ∧
    (call_ai none 0 true oc404Ex dEx "general").records = [] ∧
    (call_ai none 0 true oc404Ex dEx "general").calls = 0 := by
  have h2 := call_ai_ledger_discipline.2 none 0 true oc404Ex dEx "general" (Or.inl rfl)
  exact ⟨call_ai_ledger_discipline.1 cfgEx "sk-test" rfl (by decide) 0 (by norm_num [cfgEx])
    oc404Ex dEx "general", h2.1, h2.2⟩

/-- C3: when the summed successful cost of the current month equals the
configured ceiling exactly, the next invocation with a usable credential
is rejected at the budget gate: the call fails, no ledger row is written,
and the error message carries both the formatted ceiling and the
formatted spend (the boundary is inclusive). -/
theorem budget_gate_inclusive (cfg : AIConfig) (k : String)
    (hk : cfg.api_key = some k) (hk' : k ≠ "")
    (log : List (UsageRecord × String)) (nowMonth : String)
    (hX : get_monthly_cost log nowMonth = cfg.monthly_budget)
    (rl : Bool) (outcomes : ℕ → AttemptOutcome) (durs : ℕ → ℕ) (feature : String) :
    (call_ai (some cfg) (get_monthly_cost log nowMonth) rl outcomes durs
      feature).response.success = false ∧
    (call_ai (some cfg) (get_monthly_cost log nowMonth) rl outcomes durs
      feature).response.error =
      some (budgetErrorMsg cfg.monthly_budget (get_monthly_cost log nowMonth)) ∧
    (call_ai (some cfg) (get_monthly_cost log nowMonth) rl outcomes durs
      feature).records = [] ∧
    (∃ a b, budgetErrorMsg cfg.monthly_budget (get_monthly_cost log nowMonth) =
      a ++ formatUSD cfg.monthly_budget ++ b) ∧
    (∃ a b, budgetErrorMsg cfg.monthly_budget (get_monthly_cost log nowMonth) =
      a ++ formatUSD (get_monthly_cost log nowMonth) ++ b) := by
  have hkey : ¬(cfg.api_key = none ∨ cfg.api_key = some "") := by
    rw [hk]; simp [hk']
  have hbud : cfg.monthly_budget ≤ get_monthly_cost log nowMonth := le_of_eq hX.symm
  refine ⟨by simp [call_ai, hkey, hbud], by simp [call_ai, hkey, hbud],
    by simp [call_ai, hkey, hbud], ?_, ?_⟩
  · exact ⟨"Monthly budget $",
      " exceeded ($" ++ formatUSD (get_monthly_cost log nowMonth) ++ " spent)",
      by simp [budgetErrorMsg, String.append_assoc]⟩
  · exact ⟨"Monthly budget $" ++ formatUSD cfg.monthly_budget ++ " exceeded ($",
      " spent)", by simp [budgetErrorMsg, String.append_assoc]⟩

/-- Witness for C3: ledger `logEx` sums to exactly the ceiling 50 in month
`2026-10`; the call is rejected with no row written. -/
theorem budget_gate_inclusive_witness :
    (call_ai (some cfgEx) (get_monthly_cost logEx "2026-10") true oc404Ex dEx
      "general").response.success = false ∧
    (call_ai (some cfgEx) (get_monthly_cost logEx "2026-10") true oc404Ex dEx
      "general").records = [] := by
  have h := budget_gate_inclusive cfgEx "sk-test" rfl (by decide) logEx "2026-10"
    (by simp [get_monthly_cost, logEx, log_ai_usage, cfgEx]; norm_num) true oc404Ex dEx "general"
  exact ⟨h.1, h.2.2.1⟩

/-- C7: a zero or negative configured ceiling rejects every invocation
with a usable credential at the budget gate, because the month-to-date
spend is nonnegative whenever every recorded cost is nonnegative; the
comparison is total, so no error can arise. -/
theorem nonpositive_ceiling_rejects (cfg : AIConfig) (k : String)
    (hk : cfg.api_key = some k) (hk' : k ≠ "") (hceil : cfg.monthly_budget ≤ 0)
    (log : List (UsageRecord × String)) (nowMonth : String)
    (hcosts : ∀ p ∈ log, 0 ≤ p.1.cost_usd)
    (rl : Bool) (outcomes : ℕ → AttemptOutcome) (durs : ℕ → ℕ) (feature : String) :
    0 ≤ get_monthly_cost log nowMonth ∧
    (call_ai (some cfg) (get_monthly_cost log nowMonth) rl outcomes durs
      feature).response.success = false ∧
    (call_ai (some cfg) (get_monthly_cost log nowMonth) rl outcomes durs
      feature).response.error =
      some (budgetErrorMsg cfg.monthly_budget (get_monthly_cost log nowMonth)) ∧
    (call_ai (some cfg) (get_monthly_cost log nowMonth) rl outcomes durs
      feature).records = [] := by
  have hspend : 0 ≤ get_monthly_cost log nowMonth := by
    apply List.sum_nonneg
    intro x hx
    rw [List.mem_map] at hx
    obtain ⟨p, hp, rfl⟩ := hx
    exact hcosts p (List.mem_filter.mp hp).1
  have hkey : ¬(cfg.api_key = none ∨ cfg.api_key = some "") := by
    rw [hk]; simp [hk']
  have hbud : cfg.monthly_budget ≤ get_monthly_cost log nowMonth := le_trans hceil hspend
  exact ⟨hspend, by simp [call_ai, hkey, hbud], by simp [call_ai, hkey, hbud],
    by simp [call_ai, hkey, hbud]⟩

/-- Witness for C7: a ceiling of 0 with the concrete ledger `logEx`. -/
theorem nonpositive_ceiling_rejects_witness :
    0 ≤ get_monthly_cost logEx "2026-10" ∧
    (call_ai (some { cfgEx with monthly_budget := 0 })
      (get_monthly_cost logEx "2026-10") true oc404Ex dEx
      "general").response.success = false := by
  have h := nonpositive_ceiling_rejects { cfgEx with monthly_budget := 0 } "sk-test" rfl
    (by decide) (by norm_num) logEx "2026-10"
    (by intro p hp; fin_cases hp <;> norm_num [log_ai_usage]) true oc404Ex dEx "general"
  exact ⟨h.1, h.2.1⟩

/-- C1: under passing gates, a 503-503-200 environment yields exactly one
ledger row (successful) and exactly the two backoff sleeps `[2, 4]`
(`2^(n-1)` before attempt `n`, none before attempt 1); a 404 on the first
attempt yields exactly one ledger row (failed), no sleeps, and only one
HTTP request — the remaining attempts are not consumed. -/
theorem retry_backoff_policy :
    (∀ (cfg : AIConfig) (k : String), cfg.api_key = some k → k ≠ "" →
     ∀ (mc : ℚ), mc < cfg.monthly_budget →
     ∀ (outcomes : ℕ → AttemptOutcome) (durs : ℕ → ℕ) (feature : String)
       (b0 b1 b2 : ResponseBody) (s0 s1 s2 : String),
       outcomes 0 = .http 503 b0 s0 → outcomes 1 = .http 503 b1 s1 →
       outcomes 2 = .http 200 b2 s2 →
       ∃ rec, (call_ai (some cfg) mc true outcomes durs feature).records = [rec] ∧
         rec.success = true ∧
         (call_ai (some cfg) mc true outcomes durs feature).sleeps = [2, 4] ∧
         (call_ai (some cfg) mc true outcomes durs feature).calls = 3) ∧
    (∀ (cfg : AIConfig) (k : String), cfg.api_key = some k → k ≠ "" →
     ∀ (mc : ℚ), mc < cfg.monthly_budget →
     ∀ (outcomes : ℕ → AttemptOutcome) (durs : ℕ → ℕ) (feature : String)
       (b : ResponseBody) (s : String),
       outcomes 0 = .http 404 b s →
       ∃ rec, (call_ai (some cfg) mc true outcomes durs feature).records = [rec] ∧
         rec.success = false ∧
         (call_ai (some cfg) mc true outcomes durs feature).sleeps = [] ∧
         (call_ai (some cfg) mc true outcomes durs feature).calls = 1) := by
  constructor
  · intro cfg k hk hk' mc hb outcomes durs feature b0 b1 b2 s0 s1 s2 h0 h1 h2
    have hkey : ¬(cfg.api_key = none ∨ cfg.api_key = some "") := by
      rw [hk]; simp [hk']
    have hbud : ¬(cfg.monthly_budget ≤ mc) := not_le.mpr hb
    refine ⟨log_ai_usage "deepseek" cfg.model feature
      ((b2.usage.getD ⟨none, none⟩).prompt_tokens.getD 0)
      ((b2.usage.getD ⟨none, none⟩).completion_tokens.getD 0)
      (((b2.usage.getD ⟨none, none⟩).prompt_tokens.getD 0 : ℚ) / 1000000 *
          (pricingFor cfg.model).price_in
        + ((b2.usage.getD ⟨none, none⟩).completion_tokens.getD 0 : ℚ) / 1000000 *
          (pricingFor cfg.model).price_out)
      true none (durs 2), ?_, rfl, ?_, ?_⟩ <;>
      simp [call_ai, hkey, hbud, runAttempts, h0, h1, h2, log_ai_usage]
  · intro cfg k hk hk' mc hb outcomes durs feature b s h0
    have hkey : ¬(cfg.api_key = none ∨ cfg.api_key = some "") := by
      rw [hk]; simp [hk']
    have hbud : ¬(cfg.monthly_budget ≤ mc) := not_le.mpr hb
    refine ⟨log_ai_usage "deepseek" cfg.model feature 0 0 0 false
      (some ("HTTP " ++ toString 404 ++ ": " ++ s.take 150)) 0, ?_, rfl, ?_, ?_⟩ <;>
      simp [call_ai, hkey, hbud, runAttempts, h0, log_ai_usage]

/-- Witness for C1 at a concrete configuration and both environments. -/
theorem retry_backoff_policy_witness :
    (call_ai (some cfgEx) 0 true ocRetryEx dEx "general").sleeps = [2, 4] ∧
    (call_ai (some cfgEx) 0 true oc404Ex dEx "general").sleeps = [] ∧
    (call_ai (some cfgEx) 0 true oc404Ex dEx "general").calls = 1 := by
  obtain ⟨_, _, _, hs, _⟩ := retry_backoff_policy.1 cfgEx "sk-test" rfl (by decide) 0
    (by norm_num [cfgEx]) ocRetryEx dEx "general" ⟨"", none⟩ ⟨"", none⟩ bodyEx
    "busy" "busy" "" rfl rfl rfl
  obtain ⟨_, _, _, hs', hc'⟩ := retry_backoff_policy.2 cfgEx "sk-test" rfl (by decide) 0
    (by norm_num [cfgEx]) oc404Ex dEx "general" ⟨"", none⟩ "nf" rfl
  exact ⟨hs, hs', hc'⟩

/-- C8: every ledger row `call_ai` writes with `success = false` carries
zero cost, zero prompt tokens and zero completion tokens, on every failure
path — exhausted transient retries, non-transient status, timeout on the
last attempt, connection failure, or unexpected error. -/
theorem failure_records_zeroed (cfg? : Option AIConfig) (mc : ℚ) (rl : Bool)
    (outcomes : ℕ → AttemptOutcome) (durs : ℕ → ℕ) (feature : String) :
    ∀ rec ∈ (call_ai cfg? mc rl outcomes durs feature).records,
      rec.success = false →
      rec.cost_usd = 0 ∧ rec.prompt_tokens = 0 ∧ rec.completion_tokens = 0 := by
  intro rec hmem hfail
  cases cfg? with
  | none => simp [call_ai, notConfiguredResult] at hmem
  | some cfg =>
      by_cases hkey : cfg.api_key = none ∨ cfg.api_key = some ""
      · simp [call_ai, hkey, notConfiguredResult] at hmem
      · by_cases hbud : cfg.monthly_budget ≤ mc
        · simp [call_ai, hkey, hbud] at hmem
        · by_cases hrl : rl = false
          · simp [call_ai, hkey, hbud, hrl] at hmem
          · have hrl' : rl = true := by
              cases rl
              · exact absurd rfl hrl
              · rfl
            subst hrl'
            rcases runAttempts_record_cases cfg.model feature outcomes durs [0, 1, 2] ""
              with ⟨ho, hw⟩ | ⟨resp, r1, ho, hw, hr1, _⟩
            · simp [call_ai, hkey, hbud, ho, hw] at hmem
              rw [hmem]
              exact ⟨rfl, rfl, rfl⟩
            · simp [call_ai, hkey, hbud, ho, hw] at hmem
              rw [hmem, hr1] at hfail
              exact absurd hfail (by simp)

/-- Witness for C8: the failure row of the concrete 404 run has zero cost
and zero tokens. -/
theorem failure_records_zeroed_witness :
    (log_ai_usage "deepseek" cfgEx.model "general" 0 0 0 false
      (some ("HTTP " ++ toString 404 ++ ": " ++ "nf".take 150)) 0).cost_usd = 0 ∧
    (log_ai_usage "deepseek" cfgEx.model "general" 0 0 0 false
      (some ("HTTP " ++ toString 404 ++ ": " ++ "nf".take 150)) 0).prompt_tokens = 0 ∧
    (log_ai_usage "deepseek" cfgEx.model "general" 0 0 0 false
      (some ("HTTP " ++ toString 404 ++ ": " ++ "nf".take 150)) 0).completion_tokens = 0 :=
  failure_records_zeroed (some cfgEx) 0 true oc404Ex dEx "general" _
    (by
      have hkey : ("sk-test" : String) ≠ "" := by decide
      norm_num [call_ai, runAttempts, oc404Ex, cfgEx, log_ai_usage, hkey]
      simp) rfl

/-- C10: every ledger row `call_ai` writes with `success = false` records
a duration of 0 milliseconds, regardless of how long the failed attempts
and backoff sleeps took; only success rows carry the measured duration of
the final attempt. -/
theorem failure_records_zero_duration (cfg? : Option AIConfig) (mc : ℚ) (rl : Bool)
    (outcomes : ℕ → AttemptOutcome) (durs : ℕ → ℕ) (feature : String) :
    ∀ rec ∈ (call_ai cfg? mc rl outcomes durs feature).records,
      rec.success = false → rec.duration_ms = 0 := by
  intro rec hmem hfail
  cases cfg? with
  | none => simp [call_ai, notConfiguredResult] at hmem
  | some cfg =>
      by_cases hkey : cfg.api_key = none ∨ cfg.api_key = some ""
      · simp [call_ai, hkey, notConfiguredResult] at hmem
      · by_cases hbud : cfg.monthly_budget ≤ mc
        · simp [call_ai, hkey, hbud] at hmem
        · by_cases hrl : rl = false
          · simp [call_ai, hkey, hbud, hrl] at hmem
          · have hrl' : rl = true := by
              cases rl
              · exact absurd rfl hrl
              · rfl
            subst hrl'
            rcases runAttempts_record_cases cfg.model feature outcomes durs [0, 1, 2] ""
              with ⟨ho, hw⟩ | ⟨resp, r1, ho, hw, hr1, _⟩
            · simp [call_ai, hkey, hbud, ho, hw] at hmem
              rw [hmem]
              rfl
            · simp [call_ai, hkey, hbud, ho, hw] at hmem
              rw [hmem, hr1] at hfail
              exact absurd hfail (by simp)

/-- Witness for C10: the failure row of the concrete 404 run has
duration 0. -/
theorem failure_records_zero_duration_witness :
    (log_ai_usage "deepseek" cfgEx.model "general" 0 0 0 false
      (some ("HTTP " ++ toString 404 ++ ": " ++ "nf".take 150)) 0).duration_ms = 0 :=
  failure_records_zero_duration (some cfgEx) 0 true oc404Ex dEx "general" _
    (by
      have hkey : ("sk-test" : String) ≠ "" := by decide
      norm_num [call_ai, runAttempts, oc404Ex, cfgEx, log_ai_usage, hkey]
      simp) rfl

/-- C9: a 200 response whose JSON has no usage object (or whose usage
object has neither token field) still produces a success: the response
carries zero prompt tokens, zero completion tokens and zero cost, and the
single ledger row is a success row with the same zero figures. -/
theorem missing_usage_is_free (cfg : AIConfig) (k : String)
    (hk : cfg.api_key = some k) (hk' : k ≠ "")
    (mc : ℚ) (hb : mc < cfg.monthly_budget)
    (outcomes : ℕ → AttemptOutcome) (durs : ℕ → ℕ) (feature : String)
    (body : ResponseBody) (s : String)
    (h0 : outcomes 0 = .http 200 body s)
    (husage : body.usage = none ∨
      ∃ u, body.usage = some u ∧ u.prompt_tokens = none ∧ u.completion_tokens = none) :
    (call_ai (some cfg) mc true outcomes durs feature).response.success = true ∧
    (call_ai (some cfg) mc true outcomes durs feature).response.prompt_tokens = 0 ∧
    (call_ai (some cfg) mc true outcomes durs feature).response.completion_tokens = 0 ∧
    (call_ai (some cfg) mc true outcomes durs feature).response.cost_usd = 0 ∧
    ∃ rec, (call_ai (some cfg) mc true outcomes durs feature).records = [rec] ∧
      rec.success = true ∧ rec.prompt_tokens = 0 ∧ rec.completion_tokens = 0 ∧
      rec.cost_usd = 0 := by
  have hkey : ¬(cfg.api_key = none ∨ cfg.api_key = some "") := by
    rw [hk]; simp [hk']
  have hbud : ¬(cfg.monthly_budget ≤ mc) := not_le.mpr hb
  have hzero : (body.usage.getD ⟨none, none⟩).prompt_tokens.getD 0 = 0 ∧
      (body.usage.getD ⟨none, none⟩).completion_tokens.getD 0 = 0 := by
    rcases husage with h | ⟨u, h, hp, hc⟩
    · rw [h]; exact ⟨rfl, rfl⟩
    · rw [h]; simp [hp, hc]
  refine ⟨?_, ?_, ?_, ?_, ?_⟩ <;>
    simp [call_ai, hkey, hbud, runAttempts, h0, log_ai_usage, hzero.1, hzero.2]

/-- Witness for C9: concrete run against a usage-free 200 body. -/
theorem missing_usage_is_free_witness :
    (call_ai (some cfgEx) 0 true oc200NoUsage dEx "general").response.success = true ∧
    (call_ai (some cfgEx) 0 true oc200NoUsage dEx "general").response.cost_usd = 0 := by
  have h := missing_usage_is_free cfgEx "sk-test" rfl (by decide) 0 (by norm_num [cfgEx])
    oc200NoUsage dEx "general" bodyNoUsage "" rfl (Or.inl rfl)
  exact ⟨h.1, h.2.2.2.1⟩

end Gateway
